import Mathlib

/-!
Shallow embedding of `FasterSuperClusterAlgorithm` from
`src/algorithms/fastersupercluster.ts` (and the close variant shipped as an
unnamed source file). The external `supercluster` index and the host map
widget are collaborators: we model the index as an abstract record of query
functions over the currently loaded point set, and the widget as a record of
the current zoom and bounds. Numbers are rationals (JS numbers; the claims do
not depend on float rounding). JS `deepEqual` on our value types is
structural equality; `shallowEqual` on arrays of strings is list equality.
-/

namespace GMC

/-- A geographic position, as `google.maps.LatLng`. -/
structure LatLng where
  lat : ℚ
  lng : ℚ
deriving DecidableEq, Repr

/-- A host-owned marker; the engine only reads its position
(`marker.getPosition()`). -/
structure Marker where
  position : LatLng
deriving DecidableEq, Repr

/-- Bounds `[west, south, east, north]` in degrees. -/
structure BoundingBox where
  west : ℚ
  south : ℚ
  east : ℚ
  north : ℚ
deriving DecidableEq, Repr

/-- A GeoJSON point feature loaded into the index:
`{geometry: {coordinates: [lng, lat]}, properties: {marker}}`. -/
structure Point where
  lng : ℚ
  lat : ℚ
  marker : Marker
deriving DecidableEq, Repr

/-- The projection of a marker performed inside `calculate` before
`superCluster.load`. -/
def projectMarker (m : Marker) : Point :=
  { lng := m.position.lng, lat := m.position.lat, marker := m }

/-- A feature returned by `superCluster.getClusters`. For aggregate results
supercluster sets `properties.cluster = true` and a `cluster_id`; for leaf
results the properties are the original `{marker}` (the `cluster` flag is
absent, i.e. falsy). We model both shapes in one record; the branch taken
by `transformCluster` only reads the fields its shape carries. -/
structure ClusterFeature where
  lng : ℚ
  lat : ℚ
  cluster : Bool
  cluster_id : ℕ
  marker : Marker
deriving DecidableEq, Repr

/-- A rendered cluster value (`Cluster` / `SuperClusterCluster`): member
markers, a representative position, and for aggregates the supercluster id. -/
structure Cluster where
  markers : List Marker
  position : LatLng
  id : Option ℕ
deriving DecidableEq, Repr

/-- Modelled from the spec: the `Cluster` base class lives in `../cluster`,
which is not among the provided sources; §4.1 of the spec states
"`count` = number of member markers". -/
def Cluster.count (c : Cluster) : ℕ := c.markers.length

/-- Embeds `SuperClusterCluster.summary`, the getter
`` `${this.position} ${this.count}` ``. We model the string as the pair of
its two components; on our value types the string rendering is injective in
the pair, and string equality is pair equality. -/
def Cluster.summary (c : Cluster) : LatLng × ℕ := (c.position, c.count)

/-- The external supercluster library, abstracted as pure query functions of
the currently loaded point set. `getLeaves` is always called with limit
`Infinity` in the source, so no limit argument is modelled. -/
structure SuperClusterLib where
  getClusters : List Point → BoundingBox → ℤ → List ClusterFeature
  getLeaves : List Point → ℕ → List Point
  getClusterExpansionZoom : List Point → ℕ → ℚ

/-- The mutable state of a supercluster instance: the loaded point set, plus
an instrumentation counter of how many times `load` ran (so "the index is
reloaded exactly when ..." is observable). -/
structure SuperClusterState where
  points : List Point
  loads : ℕ
deriving DecidableEq, Repr

/-- Embeds `superCluster.load(points)`: replaces the entire point set. -/
def SuperClusterState.load (s : SuperClusterState) (ps : List Point) :
    SuperClusterState :=
  { points := ps, loads := s.loads + 1 }

/-- The host map widget, as read by `calculate`: `map.getZoom()` (a JS
number, possibly fractional) and `map.getBounds().toJSON()`. -/
structure MapState where
  zoom : ℚ
  bounds : BoundingBox
deriving DecidableEq, Repr

/-- Embeds `AlgorithmInput`: the incoming marker list and the host map. -/
structure AlgorithmInput where
  markers : List Marker
  map : MapState
deriving DecidableEq, Repr

/-- The cached viewport snapshot `this.state`. Its `zoom` starts out as
`null` in the constructor, hence `Option`. -/
structure ViewState where
  zoom : Option ℚ
  boundingBox : BoundingBox
deriving DecidableEq, Repr

/-- The mutable fields of the engine. `markers` and `clusters` are declared but
never initialized in the constructor, hence `Option` (JS `undefined`). -/
structure EngineState where
  superCluster : SuperClusterState
  markers : Option (List Marker)
  clusters : Option (List Cluster)
  state : ViewState
deriving DecidableEq, Repr

/-- Engine configuration relevant to `calculate`: `this.maxZoom`. -/
structure Config where
  maxZoom : ℚ
deriving DecidableEq, Repr

/-- Embeds `AlgorithmOutput`, i.e. `{clusters, changed}`; here `clusters` is `this.clusters`,
which is still `undefined` if no recompute has ever run. -/
structure AlgorithmOutput where
  clusters : Option (List Cluster)
  changed : Bool
deriving DecidableEq, Repr

/-- The state set up by the constructor:
`this.state = { zoom: null, boundingBox: [-180, -90, 180, 90] }`, a fresh
(empty) supercluster, and uninitialized `markers` / `clusters`. -/
def initialEngineState : EngineState :=
  { superCluster := { points := [], loads := 0 }
    markers := none
    clusters := none
    state := { zoom := none, boundingBox := ⟨-180, -90, 180, 90⟩ } }

/-- Embeds `getBoundingBox(map)`: `[bounds.west, bounds.south, bounds.east,
bounds.north]`. -/
def getBoundingBox (map : MapState) : BoundingBox := map.bounds

/-- JS `Math.round`: round half toward positive infinity. -/
def jsRound (q : ℚ) : ℤ := ⌊q + 1 / 2⌋

/-- JS `>` with a possibly-`null` left operand (`null` coerces to `0`), as in
`this.state.zoom > this.maxZoom` where the stored zoom starts out `null`. -/
def jsGt : Option ℚ → ℚ → Bool
  | none, m => decide ((0 : ℚ) > m)
  | some q, m => decide (q > m)

/-- The viewport snapshot taken on every call:
`{ zoom: input.map.getZoom(), boundingBox: this.getBoundingBox(input.map) }`.
Note the zoom is stored raw, not rounded. -/
def freshState (input : AlgorithmInput) : ViewState :=
  { zoom := some input.map.zoom, boundingBox := getBoundingBox input.map }

/-- The guard `this.state.zoom > this.maxZoom && state.zoom > this.maxZoom`. -/
def stillBeyondMaxZoom (cfg : Config) (old new : ViewState) : Bool :=
  jsGt old.zoom cfg.maxZoom && jsGt new.zoom cfg.maxZoom

/-- Embeds `transformCluster`: aggregate features become aggregate clusters
carrying the id, the markers of all leaf descendants, and the coordinates of
the feature as position; leaf features become clusters wrapping the single original
marker at the position owned by the marker itself. -/
def transformCluster (lib : SuperClusterLib) (points : List Point)
    (f : ClusterFeature) : Cluster :=
  if f.cluster then
    { id := some f.cluster_id
      markers := (lib.getLeaves points f.cluster_id).map (·.marker)
      position := ⟨f.lat, f.lng⟩ }
  else
    { id := none
      markers := [f.marker]
      position := f.marker.position }

/-- Embeds the method `cluster({map})`: query the index inside the current bounding box at the
rounded current zoom and transform each feature. -/
def cluster (lib : SuperClusterLib) (points : List Point) (map : MapState) :
    List Cluster :=
  (lib.getClusters points (getBoundingBox map) (jsRound map.zoom)).map
    (transformCluster lib points)

/-- Embeds `getExpansionZoom(cluster)` (unnamed source part) /
`SuperClusterCluster.expansionZoom` (ts source):
`Math.min(superCluster.getClusterExpansionZoom(id), 20)`. -/
def getExpansionZoom (lib : SuperClusterLib) (points : List Point)
    (id : ℕ) : ℚ :=
  min (lib.getClusterExpansionZoom points id) 20

/-- Embeds `FasterSuperClusterAlgorithm.calculate`, step by step:
1. if the incoming markers differ (deep equality) from the stored ones,
   store a copy, project them and reload the index, and set `changed`;
2. take the fresh viewport snapshot;
3. if markers did not change: keep `changed = false` when both the old and
   new zoom exceed `maxZoom`, otherwise compare the snapshots deeply;
4. store the new snapshot unconditionally;
5. if `changed`: recompute the cluster list; when a previous list is stored
   (`clusters && this.clusters` — a JS array is always truthy, even empty),
   downgrade `changed` to false if the summary sequences match; store the
   new list;
6. return `{clusters: this.clusters, changed}`. -/
def calculate (cfg : Config) (lib : SuperClusterLib) (s : EngineState)
    (input : AlgorithmInput) : AlgorithmOutput × EngineState :=
  let s1 : EngineState :=
    if some input.markers = s.markers then s
    else
      { s with
        markers := some input.markers
        superCluster := s.superCluster.load (input.markers.map projectMarker) }
  let st := freshState input
  let changed : Bool :=
    if some input.markers = s.markers then
      if stillBeyondMaxZoom cfg s.state st then false
      else decide (¬ s.state = st)
    else true
  let s2 := { s1 with state := st }
  if changed then
    let clusters := cluster lib s2.superCluster.points input.map
    let changed2 : Bool :=
      match s2.clusters with
      | some old =>
          decide (¬ clusters.map Cluster.summary = old.map Cluster.summary)
      | none => true
    let s3 := { s2 with clusters := some clusters }
    ({ clusters := s3.clusters, changed := changed2 }, s3)
  else
    ({ clusters := s2.clusters, changed := false }, s2)

/-! ### Basic lemmas about `calculate` -/

/-- After any call, the stored marker list is the incoming one. -/
theorem calculate_markers (cfg : Config) (lib : SuperClusterLib)
    (s : EngineState) (input : AlgorithmInput) :
    ((calculate cfg lib s input).2).markers = some input.markers := by
  simp only [calculate]
  split <;> split <;> try split
  all_goals simp_all

/-- After any call, the stored viewport snapshot is the fresh one. -/
theorem calculate_state (cfg : Config) (lib : SuperClusterLib)
    (s : EngineState) (input : AlgorithmInput) :
    ((calculate cfg lib s input).2).state = freshState input := by
  simp only [calculate]
  split <;> split <;> try split
  all_goals simp_all

/-- The returned cluster list always equals the post-call stored one. -/
theorem calculate_output_clusters (cfg : Config) (lib : SuperClusterLib)
    (s : EngineState) (input : AlgorithmInput) :
    (calculate cfg lib s input).1.clusters =
      ((calculate cfg lib s input).2).clusters := by
  simp only [calculate]
  split <;> split <;> try split
  all_goals simp_all

/-- When the markers are unchanged and the viewport check does not fire
(either both zooms are beyond `maxZoom`, or the snapshots are deeply equal),
the call is a complete no-op apart from the snapshot store: `changed` is
false, and the cluster field, the cluster output and the index are all
untouched. -/
theorem calculate_noop (cfg : Config) (lib : SuperClusterLib)
    (s : EngineState) (input : AlgorithmInput)
    (hm : some input.markers = s.markers)
    (hv : stillBeyondMaxZoom cfg s.state (freshState input) = true ∨
      s.state = freshState input) :
    calculate cfg lib s input =
      ({ clusters := s.clusters, changed := false },
        { s with state := freshState input }) := by
  simp only [calculate]
  rcases hv with hv | hv
  · simp [hm, hv]
  · simp [hm, hv]

/-- The index instance is reloaded exactly by step 1: it is replaced by a
`load` of the projected incoming markers when they differ from the stored
list, and untouched otherwise. -/
theorem calculate_superCluster (cfg : Config) (lib : SuperClusterLib)
    (s : EngineState) (input : AlgorithmInput) :
    ((calculate cfg lib s input).2).superCluster =
      if some input.markers = s.markers then s.superCluster
      else s.superCluster.load (input.markers.map projectMarker) := by
  simp only [calculate]
  split <;> split <;> try split
  all_goals simp_all

/-! ### Concrete fixtures used by witnesses and counterexamples -/

/-- A configuration with `maxZoom = 16` (the upstream default). -/
def cfg0 : Config := ⟨16⟩

/-- The whole-world bounding box. -/
def box0 : BoundingBox := ⟨-180, -90, 180, 90⟩

/-- A smaller bounding box, used to vary the viewport. -/
def box1 : BoundingBox := ⟨0, 0, 10, 10⟩

/-- Markers at four distinct positions. -/
def mA : Marker := ⟨⟨0, 0⟩⟩

def mB : Marker := ⟨⟨1, 1⟩⟩

def mC : Marker := ⟨⟨2, 2⟩⟩

def mD : Marker := ⟨⟨7, 8⟩⟩

/-- An index behaviour that returns no clusters at all. -/
def lib0 : SuperClusterLib := ⟨fun _ _ _ => [], fun _ _ => [], fun _ _ => 0⟩

/-- Input: marker `mA`, zoom 3, whole-world bounds. -/
def input1 : AlgorithmInput := ⟨[mA], ⟨3, box0⟩⟩

/-- Same markers as `input1` but zoom 4, so the viewport comparison fires. -/
def input2 : AlgorithmInput := ⟨[mA], ⟨4, box0⟩⟩

/-- Input with a fractional zoom of `7/2`. -/
def inputHalf : AlgorithmInput := ⟨[mA], ⟨7 / 2, box0⟩⟩

/-- An index behaviour that always reports one aggregate (id 1) at `(0, 0)`
whose leaves are all loaded points. -/
def libAgg : SuperClusterLib :=
  ⟨fun _ _ _ => [⟨0, 0, true, 1, mA⟩], fun pts _ => pts, fun _ _ => 0⟩

/-- First-call input for the summary-collision scenario: markers `A, B`. -/
def inputA : AlgorithmInput := ⟨[mA, mB], ⟨3, box0⟩⟩

/-- Second-call input for the summary-collision scenario: markers `A, C`. -/
def inputB : AlgorithmInput := ⟨[mA, mC], ⟨3, box0⟩⟩

/-- The engine state after the first summary-collision call. -/
def sAgg1 : EngineState := (calculate cfg0 libAgg initialEngineState inputA).2

/-- The aggregate cluster produced by the first summary-collision call. -/
def clAB : Cluster := ⟨[mA, mB], ⟨0, 0⟩, some 1⟩

/-- The aggregate cluster produced by the second summary-collision call. -/
def clAC : Cluster := ⟨[mA, mC], ⟨0, 0⟩, some 1⟩

/-- A leaf feature whose geometry coordinates `(lng 5, lat 6)` deliberately
differ from the position `(lat 7, lng 8)` of the marker it wraps. -/
def fLeaf : ClusterFeature := ⟨5, 6, false, 0, mD⟩

/-- An index behaviour that always reports the single leaf feature `fLeaf`. -/
def libLeaf : SuperClusterLib :=
  ⟨fun _ _ _ => [fLeaf], fun _ _ => [], fun _ _ => 0⟩

/-- An engine state whose stored zoom 17 is beyond `maxZoom = 16`. -/
def sBeyond : EngineState :=
  { initialEngineState with
    markers := some [mA]
    state := ⟨some 17, box0⟩ }

/-- Input at zoom 18 (also beyond `maxZoom`) with a drifted bounding box. -/
def inputBeyond : AlgorithmInput := ⟨[mA], ⟨18, box1⟩⟩

/-! ### The claims -/

/-- C1: for every marker list and viewport, if `calculate` is called twice
in a row with identical arguments (same marker contents, host map reporting
the same zoom and bounds both times), the second call returns
`changed = false` — from any starting state and any index behaviour. -/
theorem c1_second_identical_call_unchanged (cfg : Config)
    (lib : SuperClusterLib) (s0 : EngineState) (input : AlgorithmInput) :
    ((calculate cfg lib (calculate cfg lib s0 input).2 input).1).changed
      = false := by
  have hm := (calculate_markers cfg lib s0 input).symm
  have hst := calculate_state cfg lib s0 input
  rw [calculate_noop cfg lib (calculate cfg lib s0 input).2 input hm
    (Or.inr hst)]

/-- C2: when the marker list is unchanged and both the previously stored
zoom and the current zoom strictly exceed `maxZoom`, `calculate` returns
`changed = false` and performs no recomputation — the cluster field, the
returned list and the index are all untouched — regardless of any
difference in the bounding box. -/
theorem c2_beyond_max_zoom_no_change (cfg : Config) (lib : SuperClusterLib)
    (s : EngineState) (input : AlgorithmInput) (z : ℚ)
    (hm : some input.markers = s.markers)
    (hz : s.state.zoom = some z)
    (hz1 : z > cfg.maxZoom)
    (hz2 : input.map.zoom > cfg.maxZoom) :
    (calculate cfg lib s input).1.changed = false
    ∧ ((calculate cfg lib s input).2).clusters = s.clusters
    ∧ ((calculate cfg lib s input).2).superCluster = s.superCluster
    ∧ (calculate cfg lib s input).1.clusters = s.clusters := by
  have hb : stillBeyondMaxZoom cfg s.state (freshState input) = true := by
    simp [stillBeyondMaxZoom, jsGt, hz, hz1, hz2, freshState]
  rw [calculate_noop cfg lib s input hm (Or.inl hb)]
  exact ⟨rfl, rfl, rfl, rfl⟩

/-- Witness for C2 at `maxZoom = 16`, stored zoom 17, current zoom 18, and
a drifted bounding box. -/
theorem c2_beyond_max_zoom_no_change_witness :
    (some inputBeyond.markers = sBeyond.markers
      ∧ sBeyond.state.zoom = some 17
      ∧ (17 : ℚ) > cfg0.maxZoom
      ∧ inputBeyond.map.zoom > cfg0.maxZoom)
    ∧ ((calculate cfg0 lib0 sBeyond inputBeyond).1.changed = false
      ∧ ((calculate cfg0 lib0 sBeyond inputBeyond).2).clusters
          = sBeyond.clusters
      ∧ ((calculate cfg0 lib0 sBeyond inputBeyond).2).superCluster
          = sBeyond.superCluster
      ∧ (calculate cfg0 lib0 sBeyond inputBeyond).1.clusters
          = sBeyond.clusters) :=
  ⟨⟨by decide, by decide, by decide, by decide⟩,
    c2_beyond_max_zoom_no_change cfg0 lib0 sBeyond inputBeyond 17
      (by decide) (by decide) (by decide) (by decide)⟩

/-- C3 counterexample: a run in which both the newly computed cluster list
and the previously stored one are empty, the recompute gate fires (markers
unchanged, snapshots differ, zooms not beyond max), and the downgrade DOES
occur: the call returns `changed = false`. This refutes the claim that the
downgrade happens only when both lists are non-empty. -/
theorem c3_downgrade_on_empty_lists :
    (((calculate cfg0 lib0 initialEngineState input1).2).clusters = some []
      ∧ ((calculate cfg0 lib0 initialEngineState input1).2).markers
          = some input2.markers
      ∧ ¬ ((calculate cfg0 lib0 initialEngineState input1).2).state
          = freshState input2
      ∧ stillBeyondMaxZoom cfg0
          ((calculate cfg0 lib0 initialEngineState input1).2).state
          (freshState input2) = false)
    ∧ (calculate cfg0 lib0
        (calculate cfg0 lib0 initialEngineState input1).2 input2).2.clusters
        = some []
    ∧ (calculate cfg0 lib0
        (calculate cfg0 lib0 initialEngineState input1).2 input2).1.changed
        = false := by
  decide

/-- C3 amended: when `calculate` recomputes (here: because the marker list
changed, so the gate certainly fires), the downgrade to `changed = false`
happens exactly when a previously stored cluster list exists — empty or not
— and its summary sequence matches that of the newly computed list; the
newly computed list always exists (a JS array, truthy even when empty), so
no condition is placed on it. -/
theorem c3_downgrade_guard (cfg : Config) (lib : SuperClusterLib)
    (s : EngineState) (input : AlgorithmInput)
    (hm : ¬ some input.markers = s.markers) :
    (calculate cfg lib s input).1.changed = false ↔
      ∃ old, s.clusters = some old ∧
        (cluster lib (input.markers.map projectMarker) input.map).map
            Cluster.summary
          = old.map Cluster.summary := by
  simp only [calculate, if_neg hm]
  cases hcl : s.clusters with
  | none => simp
  | some old => simp [SuperClusterState.load]

/-- Witness for C3 amended, at the second summary-collision call (markers
changed from `[A, B]` to `[A, C]`). -/
theorem c3_downgrade_guard_witness :
    (¬ some inputB.markers = sAgg1.markers)
    ∧ ((calculate cfg0 libAgg sAgg1 inputB).1.changed = false ↔
        ∃ old, sAgg1.clusters = some old ∧
          (cluster libAgg (inputB.markers.map projectMarker) inputB.map).map
              Cluster.summary
            = old.map Cluster.summary) :=
  ⟨by decide, c3_downgrade_guard cfg0 libAgg sAgg1 inputB (by decide)⟩

/-- C4: on every call, the stored viewport snapshot is replaced by the
freshly read zoom and bounding box, unconditionally — including calls that
report `changed = false` — so the next call compares against this one. -/
theorem c4_snapshot_stored_unconditionally (cfg : Config)
    (lib : SuperClusterLib) (s : EngineState) (input : AlgorithmInput) :
    ((calculate cfg lib s input).2).state =
      { zoom := some input.map.zoom
        boundingBox := getBoundingBox input.map } :=
  calculate_state cfg lib s input

/-- C5 counterexample: at a fractional host zoom of `7/2`, the snapshot
records `7/2` itself, which is not the rounding of `7/2` to an integer
(`Math.round` gives 4). The recorded zoom is the raw reported zoom, not the
rounded one. -/
theorem c5_snapshot_zoom_not_rounded :
    ((calculate cfg0 lib0 initialEngineState inputHalf).2).state.zoom
      = some (7 / 2)
    ∧ ¬ ((calculate cfg0 lib0 initialEngineState inputHalf).2).state.zoom
      = some ((jsRound (7 / 2) : ℤ) : ℚ) := by
  have h4 : jsRound (7 / 2) = 4 := by
    rw [jsRound]
    norm_num
  rw [calculate_state, h4]
  refine ⟨rfl, ?_⟩
  simp only [freshState, inputHalf, getBoundingBox, Option.some.injEq]
  norm_num

/-- C5 amended: the zoom recorded in the viewport snapshot is the host
widget zoom exactly as reported, possibly fractional; rounding to an
integer is applied only when the index is queried in `cluster`, which asks
for clusters at `Math.round(map.getZoom())`. -/
theorem c5_snapshot_zoom_raw (cfg : Config) (lib : SuperClusterLib)
    (s : EngineState) (input : AlgorithmInput) :
    ((calculate cfg lib s input).2).state.zoom = some input.map.zoom
    ∧ ∀ pts : List Point,
        cluster lib pts input.map =
          (lib.getClusters pts (getBoundingBox input.map)
              (jsRound input.map.zoom)).map (transformCluster lib pts) :=
  ⟨by rw [calculate_state cfg lib s input]; rfl, fun _ => rfl⟩

/-- C6: for every cluster identifier and every index behaviour, the
expansion zoom is the minimum of the zoom reported by the index and 20, and
in particular it never exceeds 20. -/
theorem c6_expansion_zoom_capped (lib : SuperClusterLib)
    (pts : List Point) (id : ℕ) :
    getExpansionZoom lib pts id
        = min (lib.getClusterExpansionZoom pts id) 20
    ∧ getExpansionZoom lib pts id ≤ 20 :=
  ⟨rfl, min_le_right _ _⟩

/-- C7: a feature not flagged as an aggregate is transformed into a leaf
cluster whose member list is exactly the single original marker, whose
position is the position of that marker itself (not the feature
coordinates) and whose count is 1; consequently, when the index query
returns exactly one such feature, `cluster` yields exactly that one leaf
cluster. -/
theorem c7_leaf_transform (lib : SuperClusterLib) (pts : List Point)
    (map : MapState) (f : ClusterFeature)
    (hf : f.cluster = false)
    (hq : lib.getClusters pts (getBoundingBox map) (jsRound map.zoom) = [f]) :
    transformCluster lib pts f =
      { markers := [f.marker], position := f.marker.position, id := none }
    ∧ (transformCluster lib pts f).count = 1
    ∧ cluster lib pts map =
        [{ markers := [f.marker], position := f.marker.position, id := none }] := by
  refine ⟨?_, ?_, ?_⟩
  · simp [transformCluster, hf]
  · simp [transformCluster, hf, Cluster.count]
  · simp [cluster, hq, transformCluster, hf]

/-- Witness for C7: a single marker at `(lat 7, lng 8)` wrapped by a leaf
feature whose geometry coordinates `(lng 5, lat 6)` differ from the marker
position; the resulting cluster carries the marker position. -/
theorem c7_leaf_transform_witness :
    (fLeaf.cluster = false
      ∧ libLeaf.getClusters [projectMarker mD] (getBoundingBox ⟨3, box0⟩)
          (jsRound (3 : ℚ)) = [fLeaf])
    ∧ (transformCluster libLeaf [projectMarker mD] fLeaf =
        { markers := [mD], position := mD.position, id := none }
      ∧ (transformCluster libLeaf [projectMarker mD] fLeaf).count = 1
      ∧ cluster libLeaf [projectMarker mD] ⟨3, box0⟩ =
          [{ markers := [mD], position := mD.position, id := none }]) :=
  ⟨⟨rfl, rfl⟩,
    c7_leaf_transform libLeaf [projectMarker mD] ⟨3, box0⟩ fLeaf rfl rfl⟩

/-- The invariant of claim C8: the loaded point set of the index is exactly
the stored marker list (empty before any call), in order, projected to
`[lng, lat]` point records. -/
def IndexLoadedInv (s : EngineState) : Prop :=
  s.superCluster.points = (s.markers.getD []).map projectMarker

/-- C8: from any state satisfying the invariant (the initial state does),
after a call to `calculate` the loaded point set is exactly the incoming
marker list, in order, projected to `[lng, lat]`; the invariant is
preserved; and the index was reloaded exactly when the incoming list
differs from the stored one. -/
theorem c8_index_loaded_sync (cfg : Config) (lib : SuperClusterLib)
    (s : EngineState) (input : AlgorithmInput)
    (h : IndexLoadedInv s) :
    ((calculate cfg lib s input).2).superCluster.points
        = input.markers.map projectMarker
    ∧ IndexLoadedInv (calculate cfg lib s input).2
    ∧ ((calculate cfg lib s input).2).superCluster.loads
        = s.superCluster.loads
          + (if some input.markers = s.markers then 0 else 1) := by
  have hsc := calculate_superCluster cfg lib s input
  have hmk := calculate_markers cfg lib s input
  by_cases hm : some input.markers = s.markers
  · rw [if_pos hm] at hsc
    have hpts : ((calculate cfg lib s input).2).superCluster.points
        = input.markers.map projectMarker := by
      rw [hsc, h, ← hm]
      rfl
    refine ⟨hpts, ?_, ?_⟩
    · rw [IndexLoadedInv, hpts, hmk]
      rfl
    · rw [hsc, if_pos hm, Nat.add_zero]
  · rw [if_neg hm] at hsc
    have hpts : ((calculate cfg lib s input).2).superCluster.points
        = input.markers.map projectMarker := by
      rw [hsc]
      rfl
    refine ⟨hpts, ?_, ?_⟩
    · rw [IndexLoadedInv, hpts, hmk]
      rfl
    · rw [hsc, if_neg hm, SuperClusterState.load]

/-- Witness for C8: the initial state satisfies the invariant, and a first
call with one marker loads exactly its projection, with one reload. -/
theorem c8_index_loaded_sync_witness :
    IndexLoadedInv initialEngineState
    ∧ (((calculate cfg0 lib0 initialEngineState input1).2).superCluster.points
        = input1.markers.map projectMarker
      ∧ IndexLoadedInv (calculate cfg0 lib0 initialEngineState input1).2
      ∧ ((calculate cfg0 lib0 initialEngineState input1).2).superCluster.loads
          = initialEngineState.superCluster.loads
            + (if some input1.markers = initialEngineState.markers
                then 0 else 1)) :=
  ⟨rfl, c8_index_loaded_sync cfg0 lib0 initialEngineState input1 rfl⟩

/-- C9: for two successive calls, when the second determines that neither
the marker list nor the relevant viewport state changed (snapshots deeply
equal, or both zooms beyond `maxZoom`), the stored cluster field is not
written and the second call returns the very list the first call returned. -/
theorem c9_no_change_returns_previous_list (cfg : Config)
    (lib : SuperClusterLib) (s0 : EngineState)
    (inputP inputQ : AlgorithmInput)
    (hm : some inputQ.markers = ((calculate cfg lib s0 inputP).2).markers)
    (hv : stillBeyondMaxZoom cfg ((calculate cfg lib s0 inputP).2).state
            (freshState inputQ) = true
          ∨ ((calculate cfg lib s0 inputP).2).state = freshState inputQ) :
    (calculate cfg lib (calculate cfg lib s0 inputP).2 inputQ).1.changed
        = false
    ∧ ((calculate cfg lib (calculate cfg lib s0 inputP).2 inputQ).2).clusters
        = ((calculate cfg lib s0 inputP).2).clusters
    ∧ (calculate cfg lib (calculate cfg lib s0 inputP).2 inputQ).1.clusters
        = (calculate cfg lib s0 inputP).1.clusters := by
  have h := calculate_noop cfg lib (calculate cfg lib s0 inputP).2 inputQ hm hv
  have hout := calculate_output_clusters cfg lib s0 inputP
  rw [h, hout]
  exact ⟨rfl, rfl, rfl⟩

/-- Witness for C9: repeating `input1` from the initial state; the second
call changes nothing and returns the list of the first. -/
theorem c9_no_change_returns_previous_list_witness :
    (some input1.markers
        = ((calculate cfg0 lib0 initialEngineState input1).2).markers
      ∧ ((calculate cfg0 lib0 initialEngineState input1).2).state
        = freshState input1)
    ∧ ((calculate cfg0 lib0 (calculate cfg0 lib0 initialEngineState input1).2
          input1).1.changed = false
      ∧ ((calculate cfg0 lib0
            (calculate cfg0 lib0 initialEngineState input1).2
            input1).2).clusters
          = ((calculate cfg0 lib0 initialEngineState input1).2).clusters
      ∧ (calculate cfg0 lib0 (calculate cfg0 lib0 initialEngineState input1).2
          input1).1.clusters
          = (calculate cfg0 lib0 initialEngineState input1).1.clusters) :=
  ⟨⟨by decide, by decide⟩,
    c9_no_change_returns_previous_list cfg0 lib0 initialEngineState
      input1 input1 (by decide) (Or.inr (by decide))⟩

/-- C10: two successive calls (markers `[A, B]` then `[A, C]`, an index
behaviour that aggregates everything at `(0, 0)`) for which the recomputed
cluster list differs from the previous one in its member markers, yet the
second call returns `changed = false`: the summaries — position and count
only — of the two lists coincide. -/
theorem c10_summary_blind_to_members :
    sAgg1.clusters = some [clAB]
    ∧ ((calculate cfg0 libAgg sAgg1 inputB).2).clusters = some [clAC]
    ∧ ¬ clAB.markers = clAC.markers
    ∧ clAB.summary = clAC.summary
    ∧ (calculate cfg0 libAgg sAgg1 inputB).1.changed = false := by
  decide

end GMC
